import Mathlib

/-!
Verification of the SLA-Forge agent pipeline core: the rule-based planner,
the similarity-based corpus retriever, the templating solver and the
verifier, embedded shallowly from `src/agents/{planner,tools,solver,verifier}.py`.

Strings are Lean `String`s (lists of characters, matching Python's
character-sequence view of `str`); Python `dict[str, str]` values are
association lists; Python floats are modelled as rationals `ℚ`.
-/

/-- Model of Python `str.lower()` applied character by character. -/
def pyLower (s : String) : String :=
  ⟨s.data.map Char.toLower⟩

/-- Characters removed by Python `str.strip()` with no argument (ASCII whitespace). -/
def isPySpace (c : Char) : Bool :=
  c = ' ' || c = '\t' || c = '\n' || c = '\r' || c = '\x0b' || c = '\x0c'

/-- Model of Python `str.strip()`: drop whitespace from both ends. -/
def pyStrip (s : String) : String :=
  ⟨((s.data.dropWhile isPySpace).reverse.dropWhile isPySpace).reverse⟩

/-!
Similarity scoring.  `ToolExecutor._score` delegates to
`difflib.SequenceMatcher(None, a, b).ratio()`, the Ratcliff/Obershelp
matching ratio: repeatedly take the longest common contiguous block
(earliest in `a`, then earliest in `b`, among blocks of maximal length,
matching `difflib.find_longest_match`), recurse on the left and right
remainders, and sum the matched block lengths `M`; the ratio is
`2 * M / (len a + len b)`.
-/

/-- Model of Python's `needle in hay` substring test on character lists. -/
def hasSub (needle : List Char) : List Char → Bool
  | [] => needle.isEmpty
  | c :: t => needle.isPrefixOf (c :: t) || hasSub needle t

/-- Length of the longest common prefix of two character lists. -/
def runLen : List Char → List Char → Nat
  | x :: xs, y :: ys => if x = y then runLen xs ys + 1 else 0
  | _, _ => 0

/-- All candidate blocks `(i, j, k)`: a match of length `k` starting at
position `i` of `a` and `j` of `b`, where `k` is the longest run at that
pair of positions. -/
def blockCandidates (a b : List Char) : List (Nat × Nat × Nat) :=
  ((List.range a.length).map (fun i =>
    (List.range b.length).map (fun j => (i, j, runLen (a.drop i) (b.drop j))))).flatten

/-- Keep the block with the strictly greatest length, scanning in order, so
among blocks of maximal length the first in scan order (smallest `i`, then
smallest `j`) is kept, as `difflib.find_longest_match` does. -/
def pickBest (best : Nat × Nat × Nat) : List (Nat × Nat × Nat) → Nat × Nat × Nat
  | [] => best
  | c :: rest => if best.2.2 < c.2.2 then pickBest c rest else pickBest best rest

/-- Model of `difflib.find_longest_match` over the whole strings: the longest
common contiguous block, earliest in `a` then in `b` among maximal ones. -/
def findLongestMatch (a b : List Char) : Nat × Nat × Nat :=
  pickBest (0, 0, 0) (blockCandidates a b)

/-- Total length of matched blocks in the Ratcliff/Obershelp recursion,
with explicit fuel: take the longest match and recurse on both remainders.
`a.length + b.length` fuel always suffices. -/
def matchSum : Nat → List Char → List Char → Nat
  | 0, _, _ => 0
  | fuel + 1, a, b =>
    if (findLongestMatch a b).2.2 = 0 then 0
    else
      (findLongestMatch a b).2.2
        + matchSum fuel (a.take (findLongestMatch a b).1)
            (b.take (findLongestMatch a b).2.1)
        + matchSum fuel (a.drop ((findLongestMatch a b).1 + (findLongestMatch a b).2.2))
            (b.drop ((findLongestMatch a b).2.1 + (findLongestMatch a b).2.2))

/-- The number `M` of matched characters between `a` and `b`. -/
def totalMatches (a b : List Char) : Nat :=
  matchSum (a.length + b.length) a b

/-- Model of `SequenceMatcher.ratio()` (`difflib._calculate_ratio`):
`2 * M / (len a + len b)`, and `1` when both strings are empty. -/
def calcRatio (a b : List Char) : ℚ :=
  if a.length + b.length = 0 then 1
  else 2 * (totalMatches a b : ℚ) / ((a.length : ℚ) + (b.length : ℚ))

/-!  Data model: the per-request artifacts of the four pipeline stages. -/

/-- `planner.TaskPlan`. -/
structure TaskPlan where
  task_type : String
  tool_name : String
  query : String
  metadata : List (String × String)
deriving DecidableEq, Repr

/-- `tools.RetrievalResult`. -/
structure RetrievalResult where
  task_type : String
  query : String
  context : String
  source : String
  score : ℚ
  metadata : List (String × String)
deriving DecidableEq, Repr

/-- `solver.SolveResult`. -/
structure SolveResult where
  answer : String
  plan : TaskPlan
  references : List (String × String)
  reasoning : String
deriving DecidableEq, Repr

/-- `verifier.VerificationResult`. -/
structure VerificationResult where
  passed : Bool
  answer : String
  feedback : String
  confidence : ℚ
deriving DecidableEq, Repr

/-- One entry of `Planner._TASK_RULES`. -/
structure Rule where
  task_type : String
  tool : String
  keywords : List String
deriving DecidableEq, Repr

/-- `planner.Planner`: its only per-instance state is the default task name. -/
structure Planner where
  default_task : String
deriving DecidableEq, Repr

/-- A corpus record: a Python `dict[str, str]` as an association list. -/
abbrev Entry := List (String × String)

/-- `tools.ToolExecutor`: the three corpora, injected already parsed
(file loading is an external collaborator concern). -/
structure ToolExecutor where
  anomaly_entries : List Entry
  sop_entries : List Entry
  bom_entries : List Entry
deriving DecidableEq, Repr

/-!  Planner (`src/agents/planner.py`). -/

/-- `Planner._TASK_RULES`, in declaration order. -/
def Planner.TASK_RULES : List Rule :=
  [ { task_type := "anomaly_diagnosis",
      tool := "anomaly_diagnosis",
      keywords := ["告警", "报警", "异常", "诊断"] },
    { task_type := "sop_lookup",
      tool := "sop_lookup",
      keywords := ["sop", "保全", "操作规程", "标准作业", "步骤", "检修"] },
    { task_type := "workorder_recommendation",
      tool := "workorder_recommendation",
      keywords := ["bom", "工单", "备件", "物料", "更换", "维修任务"] } ]

/-- `Planner._extract_query`: the trimmed request text. -/
def Planner.extract_query (request : String) : String :=
  pyStrip request

/-- The marker table of `Planner._estimate_priority`, in declaration order. -/
def Planner.markers : List (String × String) :=
  [("紧急", "high"), ("立即", "high"), ("尽快", "high"),
   ("建议", "standard"), ("优化", "standard")]

/-- `Planner._estimate_priority`: first marker occurring in the case-folded
request wins; defaults to `"standard"`. -/
def Planner.estimate_priority (request : String) : String :=
  match Planner.markers.find? (fun m => hasSub m.1.data (pyLower request).data) with
  | some m => m.2
  | none => "standard"

/-- The rule loop of `Planner.plan`: the matched-keyword filter of each rule
in order, first rule with a non-empty filter wins, else the fallback plan. -/
def Planner.planGo (p : Planner) (request normalized : String) : List Rule → TaskPlan
  | [] =>
    { task_type := p.default_task,
      tool_name := p.default_task,
      query := Planner.extract_query request,
      metadata := [("matched_keywords", ""),
                   ("priority", Planner.estimate_priority request),
                   ("reason", "fallback")] }
  | r :: rest =>
    if (r.keywords.filter (fun kw => hasSub (pyLower kw).data normalized.data)).isEmpty then
      Planner.planGo p request normalized rest
    else
      { task_type := r.task_type,
        tool_name := r.tool,
        query := Planner.extract_query request,
        metadata := [("matched_keywords",
                      String.intercalate ","
                        (r.keywords.filter (fun kw => hasSub (pyLower kw).data normalized.data))),
                     ("priority", Planner.estimate_priority request)] }

/-- `Planner.plan`. -/
def Planner.plan (p : Planner) (request : String) : TaskPlan :=
  Planner.planGo p request (pyLower request) Planner.TASK_RULES

/-- A rule matches when at least one of its keywords, case-folded, occurs as
a substring of the case-folded request. -/
def Planner.ruleMatches (r : Rule) (normalized : String) : Bool :=
  r.keywords.any (fun kw => hasSub (pyLower kw).data normalized.data)

/-!  Corpus retriever (`src/agents/tools.py`). -/

/-- The match text of a record: `" ".join(entry[field] for field in fields
if field in entry)`. -/
def ToolExecutor.matchText (entry : Entry) (fields : List String) : String :=
  String.intercalate " "
    ((fields.filter (fun f => (entry.lookup f).isSome)).map
      (fun f => (entry.lookup f).getD ""))

/-- `ToolExecutor._score`: `0` when either string is empty, else the
`SequenceMatcher` ratio of the case-folded strings. -/
def ToolExecutor.score (query text : String) : ℚ :=
  if query = "" ∨ text = "" then 0
  else calcRatio (pyLower query).data (pyLower text).data

/-- The loop of `ToolExecutor._best_match`: replace the running best only on
a strictly greater score. -/
def ToolExecutor.best_match_go (query : String) (fields : List String) :
    List Entry → Option Entry → ℚ → Option Entry × ℚ
  | [], best, best_score => (best, best_score)
  | entry :: rest, best, best_score =>
    if best_score < ToolExecutor.score query (ToolExecutor.matchText entry fields) then
      ToolExecutor.best_match_go query fields rest (some entry)
        (ToolExecutor.score query (ToolExecutor.matchText entry fields))
    else
      ToolExecutor.best_match_go query fields rest best best_score

/-- `ToolExecutor._best_match`. -/
def ToolExecutor.best_match (entries : List Entry) (query : String)
    (fields : List String) : Option Entry × ℚ :=
  ToolExecutor.best_match_go query fields entries none 0

/-- Total model of the Python dict access `entry[key]` used when composing
context text; per spec section 7 the corpus provider guarantees these keys,
and the well-formedness predicate `ToolExecutor.wf` records that guarantee. -/
def ToolExecutor.dget (entry : Entry) (key : String) : String :=
  (entry.lookup key).getD ""

/-- `ToolExecutor._empty_result`. -/
def ToolExecutor.empty_result (plan : TaskPlan) : RetrievalResult :=
  { task_type := plan.task_type,
    query := plan.query,
    context := "",
    source := "",
    score := 0,
    metadata := [("warning", "no matching entry")] }

/-- `ToolExecutor._run_anomaly_tool`. -/
def ToolExecutor.run_anomaly_tool (t : ToolExecutor) (plan : TaskPlan) : RetrievalResult :=
  match ToolExecutor.best_match t.anomaly_entries plan.query ["symptom", "probable_causes"] with
  | (none, _) => ToolExecutor.empty_result plan
  | (some entry, s) =>
    { task_type := plan.task_type,
      query := plan.query,
      context := "告警 " ++ ToolExecutor.dget entry "alert_id" ++ "："
          ++ ToolExecutor.dget entry "symptom"
          ++ "\n可能原因：" ++ ToolExecutor.dget entry "probable_causes"
          ++ "\n推荐措施：" ++ ToolExecutor.dget entry "recommended_actions",
      source := "anomaly_diagnostics.csv#" ++ ToolExecutor.dget entry "alert_id",
      score := s,
      metadata := [("alert_id", ToolExecutor.dget entry "alert_id")] }

/-- `ToolExecutor._run_sop_tool`. -/
def ToolExecutor.run_sop_tool (t : ToolExecutor) (plan : TaskPlan) : RetrievalResult :=
  match ToolExecutor.best_match t.sop_entries plan.query ["equipment", "issue"] with
  | (none, _) => ToolExecutor.empty_result plan
  | (some entry, s) =>
    { task_type := plan.task_type,
      query := plan.query,
      context := "设备 " ++ ToolExecutor.dget entry "equipment" ++ " 的问题："
          ++ ToolExecutor.dget entry "issue"
          ++ "\nSOP 步骤：" ++ ToolExecutor.dget entry "sop_steps",
      source := "sop_lookup.csv#" ++ ToolExecutor.dget entry "equipment",
      score := s,
      metadata := [("equipment", ToolExecutor.dget entry "equipment")] }

/-- `ToolExecutor._run_bom_tool`. -/
def ToolExecutor.run_bom_tool (t : ToolExecutor) (plan : TaskPlan) : RetrievalResult :=
  match ToolExecutor.best_match t.bom_entries plan.query ["asset", "issue"] with
  | (none, _) => ToolExecutor.empty_result plan
  | (some entry, s) =>
    { task_type := plan.task_type,
      query := plan.query,
      context := "单元 " ++ ToolExecutor.dget entry "asset" ++ " 的问题："
          ++ ToolExecutor.dget entry "issue"
          ++ "\n建议工单：" ++ ToolExecutor.dget entry "work_order"
          ++ "\n执行建议：" ++ ToolExecutor.dget entry "advice",
      source := "bom_workorders.txt#" ++ ToolExecutor.dget entry "asset",
      score := s,
      metadata := [("asset", ToolExecutor.dget entry "asset"),
                   ("work_order", ToolExecutor.dget entry "work_order")] }

/-- `ToolExecutor.execute`: dispatch on the plan's tool name. -/
def ToolExecutor.execute (t : ToolExecutor) (plan : TaskPlan) : RetrievalResult :=
  if plan.tool_name = "anomaly_diagnosis" then ToolExecutor.run_anomaly_tool t plan
  else if plan.tool_name = "sop_lookup" then ToolExecutor.run_sop_tool t plan
  else if plan.tool_name = "workorder_recommendation" then ToolExecutor.run_bom_tool t plan
  else
    { task_type := plan.task_type,
      query := plan.query,
      context := "",
      source := "unknown",
      score := 0,
      metadata := [("error", "no tool named " ++ plan.tool_name)] }

/-- Provider guarantee (spec section 7): every record carries the fields the
tools read when composing the context text. -/
def ToolExecutor.wf (t : ToolExecutor) : Bool :=
  t.anomaly_entries.all (fun e =>
      ["alert_id", "symptom", "probable_causes", "recommended_actions"].all
        (fun k => (e.lookup k).isSome))
    && t.sop_entries.all (fun e =>
      ["equipment", "issue", "sop_steps"].all (fun k => (e.lookup k).isSome))
    && t.bom_entries.all (fun e =>
      ["asset", "issue", "work_order", "advice"].all (fun k => (e.lookup k).isSome))

/-!  Solver (`src/agents/solver.py`). -/

/-- Python `dict.update`: keys of `d2` overwrite values in `d1` in place,
then keys new to `d2` are appended in their order. -/
def dictUpdate (d1 d2 : List (String × String)) : List (String × String) :=
  d1.map (fun kv =>
      match d2.lookup kv.1 with
      | some v => (kv.1, v)
      | none => kv)
    ++ d2.filter (fun kv => (d1.lookup kv.1).isNone)

/-- Half-to-even rounding to an integer, as Python `round` resolves exact
halves. -/
def roundHalfEven (x : ℚ) : ℤ :=
  if x - ⌊x⌋ < 1 / 2 then ⌊x⌋
  else if 1 / 2 < x - ⌊x⌋ then ⌊x⌋ + 1
  else if 2 ∣ ⌊x⌋ then ⌊x⌋ else ⌊x⌋ + 1

/-- Model of Python `round(x, 2)`. -/
def round2 (x : ℚ) : ℚ :=
  (roundHalfEven (x * 100) : ℚ) / 100

/-- Model of the Python format `f"{x:.2f}"`, used for the score reference. -/
def fmt2 (x : ℚ) : String :=
  toString (roundHalfEven (x * 100) / 100)
    ++ "."
    ++ (if (roundHalfEven (x * 100) % 100).natAbs < 10 then "0" else "")
    ++ toString (roundHalfEven (x * 100) % 100).natAbs

/-- `Solver._compose_answer`: one of four fixed templates selected by task
type, each interpolating the retrieved context verbatim. -/
def Solver.compose_answer (task_type : String) (retrieval : RetrievalResult) : String :=
  if task_type = "anomaly_diagnosis" then
    "【告警诊断结果】\n- 诊断要点：" ++ retrieval.context
      ++ "\n- 请按照推荐措施执行，并记录处理结果用于后续追踪。"
  else if task_type = "sop_lookup" then
    "【SOP 建议】\n- 检索结果：" ++ retrieval.context
      ++ "\n- 请严格对照 SOP 步骤执行，并在执行单上完成签字确认。"
  else if task_type = "workorder_recommendation" then
    "【工单推荐】\n- 推荐依据：" ++ retrieval.context
      ++ "\n- 若需停机，请提前与生产协调确认窗口。"
  else
    "【通用响应】\n- 参考信息：" ++ retrieval.context
      ++ "\n- 建议复核需求类型以获取更准确建议。"

/-- `Solver.solve`. -/
def Solver.solve (plan : TaskPlan) (retrieval : RetrievalResult) : SolveResult :=
  if retrieval.context = "" then
    { answer := "未检索到相关知识，请转人工或补充更多信息。",
      plan := plan,
      references := [],
      reasoning := "tool=" ++ plan.tool_name ++ "; priority="
        ++ (plan.metadata.lookup "priority").getD "standard" }
  else
    { answer := Solver.compose_answer plan.task_type retrieval,
      plan := plan,
      references := dictUpdate
        [("source", retrieval.source), ("score", fmt2 retrieval.score)]
        retrieval.metadata,
      reasoning := "tool=" ++ plan.tool_name ++ "; priority="
        ++ (plan.metadata.lookup "priority").getD "standard" }

/-!  Verifier (`src/agents/verifier.py`). -/

/-- `Verifier.verify`. -/
def Verifier.verify (plan : TaskPlan) (solve_result : SolveResult)
    (retrieval : RetrievalResult) : VerificationResult :=
  { passed := !retrieval.context.isEmpty && !(pyStrip solve_result.answer).isEmpty,
    answer := solve_result.answer,
    feedback :=
      if !retrieval.context.isEmpty && !(pyStrip solve_result.answer).isEmpty then "通过校验"
      else if retrieval.context.isEmpty then "缺少检索上下文，建议人工复核"
      else "生成内容为空，建议重试",
    confidence := round2
      (if retrieval.score ≠ 0 then retrieval.score
       else if !retrieval.context.isEmpty && !(pyStrip solve_result.answer).isEmpty then (0.2 : ℚ)
       else 0) }


/-!  Lemmas about the similarity algorithm. -/

theorem runLen_le_left (a : List Char) : ∀ b, runLen a b ≤ a.length := by
  induction a with
  | nil => intro b; cases b <;> simp [runLen]
  | cons x xs ih =>
    intro b
    cases b with
    | nil => simp [runLen]
    | cons y ys =>
      by_cases h : x = y
      · simpa [runLen, h] using ih ys
      · simp [runLen, h]

theorem runLen_le_right (a : List Char) : ∀ b, runLen a b ≤ b.length := by
  induction a with
  | nil => intro b; cases b <;> simp [runLen]
  | cons x xs ih =>
    intro b
    cases b with
    | nil => simp [runLen]
    | cons y ys =>
      by_cases h : x = y
      · simpa [runLen, h] using ih ys
      · simp [runLen, h]

theorem runLen_self (a : List Char) : runLen a a = a.length := by
  induction a with
  | nil => simp [runLen]
  | cons x xs ih => simp [runLen, ih]

theorem pickBest_le_init (l : List (Nat × Nat × Nat)) :
    ∀ best : Nat × Nat × Nat, best.2.2 ≤ (pickBest best l).2.2 := by
  induction l with
  | nil => intro best; simp [pickBest]
  | cons c rest ih =>
    intro best
    simp only [pickBest]
    split
    · exact le_trans (le_of_lt (by assumption)) (ih c)
    · exact ih best

theorem pickBest_mem_le (l : List (Nat × Nat × Nat)) :
    ∀ (best : Nat × Nat × Nat), ∀ c ∈ l, c.2.2 ≤ (pickBest best l).2.2 := by
  induction l with
  | nil => intro best c hc; simp at hc
  | cons d rest ih =>
    intro best c hc
    simp only [pickBest]
    rcases List.mem_cons.mp hc with rfl | hc'
    · split
      · exact pickBest_le_init rest c
      · exact le_trans (Nat.le_of_not_lt (by assumption)) (pickBest_le_init rest best)
    · split
      · exact ih d c hc'
      · exact ih best c hc'

theorem pickBest_eq_or_mem (l : List (Nat × Nat × Nat)) :
    ∀ best : Nat × Nat × Nat, pickBest best l = best ∨ pickBest best l ∈ l := by
  induction l with
  | nil => intro best; left; rfl
  | cons c rest ih =>
    intro best
    simp only [pickBest]
    split
    · rcases ih c with h | h
      · right; rw [h]; exact List.mem_cons_self c rest
      · right; exact List.mem_cons_of_mem c h
    · rcases ih best with h | h
      · left; exact h
      · right; exact List.mem_cons_of_mem c h

theorem mem_blockCandidates {a b : List Char} {c : Nat × Nat × Nat} :
    c ∈ blockCandidates a b ↔
      ∃ i, i < a.length ∧ ∃ j, j < b.length ∧
        c = (i, j, runLen (a.drop i) (b.drop j)) := by
  simp only [blockCandidates, List.mem_flatten, List.mem_map, List.mem_range]
  constructor
  · rintro ⟨l, ⟨i, hi, rfl⟩, hc⟩
    obtain ⟨j, hj, rfl⟩ := List.mem_map.mp hc
    obtain hj' := List.mem_range.mp hj
    exact ⟨i, hi, j, hj', rfl⟩
  · rintro ⟨i, hi, j, hj, rfl⟩
    refine ⟨_, ⟨i, hi, rfl⟩, ?_⟩
    exact List.mem_map.mpr ⟨j, List.mem_range.mpr hj, rfl⟩

theorem findLongestMatch_valid (a b : List Char) :
    (findLongestMatch a b).1 + (findLongestMatch a b).2.2 ≤ a.length ∧
    (findLongestMatch a b).2.1 + (findLongestMatch a b).2.2 ≤ b.length := by
  rcases pickBest_eq_or_mem (blockCandidates a b) (0, 0, 0) with h | h
  · unfold findLongestMatch
    rw [h]
    simp
  · obtain ⟨i, hi, j, hj, hc⟩ := mem_blockCandidates.mp h
    unfold findLongestMatch
    rw [hc]
    have h1 := runLen_le_left (a.drop i) (b.drop j)
    have h2 := runLen_le_right (a.drop i) (b.drop j)
    rw [List.length_drop] at h1
    rw [List.length_drop] at h2
    constructor <;> simp <;> omega

theorem findLongestMatch_self (s : List Char) (h : s ≠ []) :
    findLongestMatch s s = (0, 0, s.length) := by
  have hpos : 0 < s.length := List.length_pos.mpr h
  have hmem : (0, 0, runLen s s) ∈ blockCandidates s s :=
    mem_blockCandidates.mpr ⟨0, hpos, 0, hpos, by simp⟩
  have hk : s.length ≤ (findLongestMatch s s).2.2 := by
    have hle := pickBest_mem_le (blockCandidates s s) (0, 0, 0) _ hmem
    simpa [runLen_self] using hle
  have hv := findLongestMatch_valid s s
  rcases hfl : findLongestMatch s s with ⟨i, j, k⟩
  rw [hfl] at hk hv
  simp only at hk hv
  simp only [Prod.mk.injEq]
  omega

theorem matchSum_nil_left (fuel : Nat) (b : List Char) : matchSum fuel [] b = 0 := by
  cases fuel with
  | zero => rfl
  | succ n => rfl

theorem matchSum_self (fuel : Nat) (s : List Char) (h : s ≠ []) :
    matchSum (fuel + 1) s s = s.length := by
  have hpos : 0 < s.length := List.length_pos.mpr h
  have hf := findLongestMatch_self s h
  simp only [matchSum, hf]
  rw [if_neg (by omega)]
  simp only [List.take_zero, List.drop_length, Nat.zero_add, List.drop_zero]
  simp [matchSum_nil_left]

theorem matchSum_le (fuel : Nat) :
    ∀ a b : List Char, matchSum fuel a b ≤ a.length ∧ matchSum fuel a b ≤ b.length := by
  induction fuel with
  | zero => intro a b; simp [matchSum]
  | succ n ih =>
    intro a b
    have hv := findLongestMatch_valid a b
    rcases hfl : findLongestMatch a b with ⟨i, j, k⟩
    rw [hfl] at hv
    simp only at hv
    simp only [matchSum, hfl]
    split
    · simp
    · obtain ⟨ih1l, ih1r⟩ := ih (a.take i) (b.take j)
      obtain ⟨ih2l, ih2r⟩ := ih (a.drop (i + k)) (b.drop (j + k))
      have h1l : matchSum n (a.take i) (b.take j) ≤ i :=
        le_trans ih1l (by rw [List.length_take]; exact Nat.min_le_left _ _)
      have h1r : matchSum n (a.take i) (b.take j) ≤ j :=
        le_trans ih1r (by rw [List.length_take]; exact Nat.min_le_left _ _)
      rw [List.length_drop] at ih2l ih2r
      constructor <;> omega

theorem totalMatches_le (a b : List Char) :
    totalMatches a b ≤ a.length ∧ totalMatches a b ≤ b.length :=
  matchSum_le _ a b

theorem totalMatches_self (s : List Char) (h : s ≠ []) :
    totalMatches s s = s.length := by
  have hpos : 0 < s.length := List.length_pos.mpr h
  obtain ⟨n, hn⟩ : ∃ n, s.length + s.length = n + 1 :=
    ⟨s.length + s.length - 1, by omega⟩
  unfold totalMatches
  rw [hn]
  exact matchSum_self n s h

theorem calcRatio_nonneg (a b : List Char) : 0 ≤ calcRatio a b := by
  unfold calcRatio
  split
  · norm_num
  · positivity

theorem calcRatio_le_one (a b : List Char) : calcRatio a b ≤ 1 := by
  unfold calcRatio
  split
  · norm_num
  · rename_i h
    have hpos : 0 < (a.length : ℚ) + (b.length : ℚ) := by
      have : 0 < a.length + b.length := Nat.pos_of_ne_zero h
      exact_mod_cast this
    rw [div_le_one hpos]
    have hM := totalMatches_le a b
    have : 2 * totalMatches a b ≤ a.length + b.length := by omega
    exact_mod_cast this

theorem calcRatio_self (s : List Char) (h : s ≠ []) : calcRatio s s = 1 := by
  have hpos : 0 < s.length := List.length_pos.mpr h
  unfold calcRatio
  rw [if_neg (by omega)]
  rw [totalMatches_self s h]
  have hQ : (0 : ℚ) < s.length := by exact_mod_cast hpos
  rw [div_eq_one_iff_eq (by linarith)]
  ring

theorem string_data_ne_nil {s : String} (h : s ≠ "") : s.data ≠ [] := by
  intro hd
  apply h
  cases s with
  | mk l => simp at hd; simp [hd]

theorem score_self {a : String} (ha : a ≠ "") : ToolExecutor.score a a = 1 := by
  unfold ToolExecutor.score
  rw [if_neg (by simp [ha])]
  apply calcRatio_self
  simp only [pyLower]
  simp only [ne_eq, List.map_eq_nil_iff]
  exact string_data_ne_nil ha

/-- C2: for all strings `a`, `b`, the similarity score lies in `[0, 1]`;
`score a a = 1` for every non-empty `a`; and a score against an empty
string (on either side) is `0`. -/
theorem score_bounds_identity :
    (∀ a b : String, 0 ≤ ToolExecutor.score a b ∧ ToolExecutor.score a b ≤ 1) ∧
    (∀ a : String, a ≠ "" → ToolExecutor.score a a = 1) ∧
    (∀ a : String, ToolExecutor.score a "" = 0 ∧ ToolExecutor.score "" a = 0) := by
  refine ⟨fun a b => ?_, fun a ha => ?_, fun a => ?_⟩
  · unfold ToolExecutor.score
    split
    · norm_num
    · exact ⟨calcRatio_nonneg _ _, calcRatio_le_one _ _⟩
  · exact score_self ha
  · constructor <;> simp [ToolExecutor.score]

/-- Witness for C2 at the concrete non-empty string `"ab"`. -/
theorem score_bounds_identity_witness :
    ("ab" : String) ≠ "" ∧ ToolExecutor.score "ab" "ab" = 1 :=
  ⟨by decide, score_bounds_identity.2.1 "ab" (by decide)⟩

/-!  Lemmas about best-match selection. -/

theorem best_match_go_spec (query : String) (fields : List String) :
    ∀ (l : List Entry) (best : Option Entry) (bs : ℚ),
      (ToolExecutor.best_match_go query fields l best bs = (best, bs) ∧
        ∀ e ∈ l, ToolExecutor.score query (ToolExecutor.matchText e fields) ≤ bs) ∨
      (∃ i, ∃ hi : i < l.length,
        ToolExecutor.best_match_go query fields l best bs =
          (some (l.get ⟨i, hi⟩),
            ToolExecutor.score query (ToolExecutor.matchText (l.get ⟨i, hi⟩) fields)) ∧
        bs < ToolExecutor.score query (ToolExecutor.matchText (l.get ⟨i, hi⟩) fields) ∧
        (∀ j, ∀ hj : j < l.length,
          ToolExecutor.score query (ToolExecutor.matchText (l.get ⟨j, hj⟩) fields) ≤
            ToolExecutor.score query (ToolExecutor.matchText (l.get ⟨i, hi⟩) fields)) ∧
        (∀ j, ∀ hj : j < l.length, j < i →
          ToolExecutor.score query (ToolExecutor.matchText (l.get ⟨j, hj⟩) fields) <
            ToolExecutor.score query (ToolExecutor.matchText (l.get ⟨i, hi⟩) fields))) := by
  intro l
  induction l with
  | nil =>
    intro best bs
    left
    exact ⟨rfl, by simp⟩
  | cons a rest ih =>
    intro best bs
    by_cases hcase :
        bs < ToolExecutor.score query (ToolExecutor.matchText a fields)
    · rw [show ToolExecutor.best_match_go query fields (a :: rest) best bs =
          ToolExecutor.best_match_go query fields rest (some a)
            (ToolExecutor.score query (ToolExecutor.matchText a fields)) by
        simp [ToolExecutor.best_match_go, hcase]]
      rcases ih (some a) (ToolExecutor.score query (ToolExecutor.matchText a fields)) with
        ⟨heq, hall⟩ | ⟨i, hi, heq, hgt, hub, hstrict⟩
      · right
        refine ⟨0, by simp, ?_, hcase, ?_, ?_⟩
        · simpa using heq
        · intro j hj
          cases j with
          | zero => simp
          | succ j =>
            have hj' : j < rest.length := by
              simp only [List.length_cons] at hj
              omega
            simpa using hall _ (List.get_mem rest j hj')
        · intro j hj hj0
          omega
      · right
        have hi' : i + 1 < (a :: rest).length := by
          simp only [List.length_cons]
          omega
        refine ⟨i + 1, hi', ?_, ?_, ?_, ?_⟩
        · simpa using heq
        · simpa using lt_trans hcase hgt
        · intro j hj
          cases j with
          | zero => simpa using le_of_lt hgt
          | succ j =>
            have hj' : j < rest.length := by
              simp only [List.length_cons] at hj
              omega
            simpa using hub j hj'
        · intro j hj hji
          cases j with
          | zero => simpa using hgt
          | succ j =>
            have hj' : j < rest.length := by
              simp only [List.length_cons] at hj
              omega
            simpa using hstrict j hj' (by omega)
    · rw [show ToolExecutor.best_match_go query fields (a :: rest) best bs =
          ToolExecutor.best_match_go query fields rest best bs by
        simp [ToolExecutor.best_match_go, hcase]]
      rcases ih best bs with ⟨heq, hall⟩ | ⟨i, hi, heq, hgt, hub, hstrict⟩
      · left
        refine ⟨heq, ?_⟩
        intro e he
        rcases List.mem_cons.mp he with rfl | he'
        · exact le_of_not_lt hcase
        · exact hall e he'
      · right
        have hi' : i + 1 < (a :: rest).length := by
          simp only [List.length_cons]
          omega
        refine ⟨i + 1, hi', ?_, ?_, ?_, ?_⟩
        · simpa using heq
        · simpa using hgt
        · intro j hj
          cases j with
          | zero => simpa using le_trans (le_of_not_lt hcase) (le_of_lt hgt)
          | succ j =>
            have hj' : j < rest.length := by
              simp only [List.length_cons] at hj
              omega
            simpa using hub j hj'
        · intro j hj hji
          cases j with
          | zero => simpa using lt_of_le_of_lt (le_of_not_lt hcase) hgt
          | succ j =>
            have hj' : j < rest.length := by
              simp only [List.length_cons] at hj
              omega
            simpa using hstrict j hj' (by omega)

theorem best_match_some (entries : List Entry) (query : String) (fields : List String)
    (e : Entry) (s : ℚ)
    (h : ToolExecutor.best_match entries query fields = (some e, s)) :
    ∃ i, ∃ hi : i < entries.length,
      entries.get ⟨i, hi⟩ = e ∧
      s = ToolExecutor.score query (ToolExecutor.matchText e fields) ∧ 0 < s ∧
      (∀ j, ∀ hj : j < entries.length,
        ToolExecutor.score query (ToolExecutor.matchText (entries.get ⟨j, hj⟩) fields) ≤ s) ∧
      (∀ j, ∀ hj : j < entries.length, j < i →
        ToolExecutor.score query (ToolExecutor.matchText (entries.get ⟨j, hj⟩) fields) < s) := by
  unfold ToolExecutor.best_match at h
  rcases best_match_go_spec query fields entries none 0 with
    ⟨heq, _⟩ | ⟨i, hi, heq, hgt, hub, hstrict⟩
  · rw [heq] at h
    simp at h
  · rw [heq] at h
    obtain ⟨he, hs⟩ := Prod.mk.injEq .. ▸ h
    obtain he' : entries.get ⟨i, hi⟩ = e := by
      simpa using he
    refine ⟨i, hi, he', ?_, ?_, ?_, ?_⟩
    · rw [← hs, he']
    · rw [← hs]; exact hgt
    · intro j hj; rw [← hs]; exact hub j hj
    · intro j hj hji; rw [← hs]; exact hstrict j hj hji

/-- C1: whenever `_best_match` selects a record, its score is at least the
score of every record in the corpus and strictly greater than the score of
every record preceding it in load order; hence no earlier record has the
same field text, so among records with identical field text the first in
load order is the one selected. -/
theorem best_match_strict_improvement (entries : List Entry) (query : String)
    (fields : List String) (e : Entry) (s : ℚ)
    (h : ToolExecutor.best_match entries query fields = (some e, s)) :
    ∃ i, ∃ hi : i < entries.length,
      entries.get ⟨i, hi⟩ = e ∧
      (∀ j, ∀ hj : j < entries.length,
        ToolExecutor.score query (ToolExecutor.matchText (entries.get ⟨j, hj⟩) fields) ≤ s) ∧
      (∀ j, ∀ hj : j < entries.length, j < i →
        ToolExecutor.score query (ToolExecutor.matchText (entries.get ⟨j, hj⟩) fields) < s) ∧
      (∀ j, ∀ hj : j < entries.length, j < i →
        ToolExecutor.matchText (entries.get ⟨j, hj⟩) fields ≠
          ToolExecutor.matchText e fields) := by
  obtain ⟨i, hi, he, hs, hpos, hub, hstrict⟩ := best_match_some entries query fields e s h
  refine ⟨i, hi, he, hub, hstrict, ?_⟩
  intro j hj hji heq
  have hlt := hstrict j hj hji
  rw [heq, ← hs] at hlt
  exact lt_irrefl s hlt

/-- Witness for C1: two records with identical searched field text; the
first in load order is selected. -/
theorem best_match_strict_improvement_witness :
    ToolExecutor.best_match
        [[("f", "ab"), ("id", "1")], [("f", "ab"), ("id", "2")]] "ab" ["f"] =
      (some [("f", "ab"), ("id", "1")], 1) ∧
    (∃ i, ∃ hi : i <
        ([[("f", "ab"), ("id", "1")], [("f", "ab"), ("id", "2")]] : List Entry).length,
      ([[("f", "ab"), ("id", "1")], [("f", "ab"), ("id", "2")]] : List Entry).get ⟨i, hi⟩ =
        [("f", "ab"), ("id", "1")] ∧
      (∀ j, ∀ hj : j <
          ([[("f", "ab"), ("id", "1")], [("f", "ab"), ("id", "2")]] : List Entry).length,
        ToolExecutor.score "ab"
          (ToolExecutor.matchText
            (([[("f", "ab"), ("id", "1")], [("f", "ab"), ("id", "2")]] : List Entry).get
              ⟨j, hj⟩) ["f"]) ≤ 1) ∧
      (∀ j, ∀ hj : j <
          ([[("f", "ab"), ("id", "1")], [("f", "ab"), ("id", "2")]] : List Entry).length,
        j < i →
        ToolExecutor.score "ab"
          (ToolExecutor.matchText
            (([[("f", "ab"), ("id", "1")], [("f", "ab"), ("id", "2")]] : List Entry).get
              ⟨j, hj⟩) ["f"]) < 1) ∧
      (∀ j, ∀ hj : j <
          ([[("f", "ab"), ("id", "1")], [("f", "ab"), ("id", "2")]] : List Entry).length,
        j < i →
        ToolExecutor.matchText
            (([[("f", "ab"), ("id", "1")], [("f", "ab"), ("id", "2")]] : List Entry).get
              ⟨j, hj⟩) ["f"] ≠
          ToolExecutor.matchText [("f", "ab"), ("id", "1")] ["f"])) := by
  have hm1 : ToolExecutor.matchText [("f", "ab"), ("id", "1")] ["f"] = "ab" := by decide
  have hm2 : ToolExecutor.matchText [("f", "ab"), ("id", "2")] ["f"] = "ab" := by decide
  have hs : ToolExecutor.score "ab" "ab" = 1 := score_self (by decide)
  have hbm : ToolExecutor.best_match
      [[("f", "ab"), ("id", "1")], [("f", "ab"), ("id", "2")]] "ab" ["f"] =
      (some [("f", "ab"), ("id", "1")], 1) := by
    simp only [ToolExecutor.best_match, ToolExecutor.best_match_go, hm1, hm2, hs]
    norm_num
  exact ⟨hbm, best_match_strict_improvement _ _ _ _ _ hbm⟩

/-!  Retrieval result invariants. -/

theorem append_left_ne_empty (a b : String) (ha : a ≠ "") : a ++ b ≠ "" := by
  intro he
  apply ha
  apply String.ext
  have hd := congrArg String.data he
  rw [String.data_append] at hd
  have hnil : a.data ++ b.data = [] := by simpa using hd
  simpa using (List.append_eq_nil.mp hnil).1

theorem run_anomaly_context_iff (t : ToolExecutor) (plan : TaskPlan) :
    ((ToolExecutor.run_anomaly_tool t plan).context = "" ↔
      (ToolExecutor.run_anomaly_tool t plan).score = 0) := by
  unfold ToolExecutor.run_anomaly_tool
  rcases hbm : ToolExecutor.best_match t.anomaly_entries plan.query
      ["symptom", "probable_causes"] with ⟨_ | e, s⟩
  · simp [ToolExecutor.empty_result]
  · obtain ⟨i, hi, he, hs, hpos, _, _⟩ := best_match_some _ _ _ _ _ hbm
    simp only
    constructor
    · intro hc
      exfalso
      refine absurd hc ?_
      repeat apply append_left_ne_empty
      decide
    · intro h0
      exact absurd h0 (ne_of_gt hpos)

theorem run_sop_context_iff (t : ToolExecutor) (plan : TaskPlan) :
    ((ToolExecutor.run_sop_tool t plan).context = "" ↔
      (ToolExecutor.run_sop_tool t plan).score = 0) := by
  unfold ToolExecutor.run_sop_tool
  rcases hbm : ToolExecutor.best_match t.sop_entries plan.query
      ["equipment", "issue"] with ⟨_ | e, s⟩
  · simp [ToolExecutor.empty_result]
  · obtain ⟨i, hi, he, hs, hpos, _, _⟩ := best_match_some _ _ _ _ _ hbm
    simp only
    constructor
    · intro hc
      exfalso
      refine absurd hc ?_
      repeat apply append_left_ne_empty
      decide
    · intro h0
      exact absurd h0 (ne_of_gt hpos)

theorem run_bom_context_iff (t : ToolExecutor) (plan : TaskPlan) :
    ((ToolExecutor.run_bom_tool t plan).context = "" ↔
      (ToolExecutor.run_bom_tool t plan).score = 0) := by
  unfold ToolExecutor.run_bom_tool
  rcases hbm : ToolExecutor.best_match t.bom_entries plan.query
      ["asset", "issue"] with ⟨_ | e, s⟩
  · simp [ToolExecutor.empty_result]
  · obtain ⟨i, hi, he, hs, hpos, _, _⟩ := best_match_some _ _ _ _ _ hbm
    simp only
    constructor
    · intro hc
      exfalso
      refine absurd hc ?_
      repeat apply append_left_ne_empty
      decide
    · intro h0
      exact absurd h0 (ne_of_gt hpos)

/-- C3: the retrieval result's context is empty exactly when its score is
zero, for every plan and well-formed executor, across the match, no-match
and unknown-tool branches of `execute`. -/
theorem execute_context_empty_iff_score_zero (t : ToolExecutor) (plan : TaskPlan)
    (hwf : ToolExecutor.wf t = true) :
    ((ToolExecutor.execute t plan).context = "" ↔
      (ToolExecutor.execute t plan).score = 0) := by
  unfold ToolExecutor.execute
  split_ifs with h1 h2 h3
  · exact run_anomaly_context_iff t plan
  · exact run_sop_context_iff t plan
  · exact run_bom_context_iff t plan
  · simp

/-- Witness for C3 at a concrete executor and plan. -/
theorem execute_context_empty_iff_score_zero_witness :
    ToolExecutor.wf ⟨[], [], []⟩ = true ∧
    ((ToolExecutor.execute ⟨[], [], []⟩ ⟨"sop_lookup", "sop_lookup", "q", []⟩).context = "" ↔
      (ToolExecutor.execute ⟨[], [], []⟩ ⟨"sop_lookup", "sop_lookup", "q", []⟩).score = 0) :=
  ⟨by decide,
    execute_context_empty_iff_score_zero ⟨[], [], []⟩
      ⟨"sop_lookup", "sop_lookup", "q", []⟩ (by decide)⟩

/-- C10: `execute` carries the plan through unchanged in every branch: the
result's task type and query equal the plan's. -/
theorem execute_preserves_task_type_query (t : ToolExecutor) (plan : TaskPlan)
    (hwf : ToolExecutor.wf t = true) :
    (ToolExecutor.execute t plan).task_type = plan.task_type ∧
    (ToolExecutor.execute t plan).query = plan.query := by
  unfold ToolExecutor.execute
  split_ifs with h1 h2 h3
  · unfold ToolExecutor.run_anomaly_tool
    rcases hbm : ToolExecutor.best_match t.anomaly_entries plan.query
        ["symptom", "probable_causes"] with ⟨_ | e, s⟩ <;>
      simp [ToolExecutor.empty_result]
  · unfold ToolExecutor.run_sop_tool
    rcases hbm : ToolExecutor.best_match t.sop_entries plan.query
        ["equipment", "issue"] with ⟨_ | e, s⟩ <;>
      simp [ToolExecutor.empty_result]
  · unfold ToolExecutor.run_bom_tool
    rcases hbm : ToolExecutor.best_match t.bom_entries plan.query
        ["asset", "issue"] with ⟨_ | e, s⟩ <;>
      simp [ToolExecutor.empty_result]
  · simp

/-- Witness for C10 at a concrete executor and plan. -/
theorem execute_preserves_task_type_query_witness :
    ToolExecutor.wf ⟨[], [], []⟩ = true ∧
    ((ToolExecutor.execute ⟨[], [], []⟩
        ⟨"anomaly_diagnosis", "anomaly_diagnosis", "q", []⟩).task_type = "anomaly_diagnosis" ∧
      (ToolExecutor.execute ⟨[], [], []⟩
        ⟨"anomaly_diagnosis", "anomaly_diagnosis", "q", []⟩).query = "q") :=
  ⟨by decide,
    execute_preserves_task_type_query ⟨[], [], []⟩
      ⟨"anomaly_diagnosis", "anomaly_diagnosis", "q", []⟩ (by decide)⟩

/-!  Planner rule precedence. -/

theorem ruleMatches_iff_filter_ne (r : Rule) (normalized : String) :
    Planner.ruleMatches r normalized = true ↔
      ((r.keywords.filter
        (fun kw => hasSub (pyLower kw).data normalized.data)).isEmpty = false) := by
  simp [Planner.ruleMatches, List.any_eq_true, List.isEmpty_eq_false_iff_exists_mem,
    List.mem_filter]

theorem planGo_first_match (p : Planner) (request normalized : String) :
    ∀ (rs : List Rule) (i : Nat) (hi : i < rs.length),
      Planner.ruleMatches (rs.get ⟨i, hi⟩) normalized = true →
      (∀ j, ∀ hj : j < rs.length, j < i →
        Planner.ruleMatches (rs.get ⟨j, hj⟩) normalized = false) →
      (Planner.planGo p request normalized rs).task_type = (rs.get ⟨i, hi⟩).task_type ∧
      (Planner.planGo p request normalized rs).tool_name = (rs.get ⟨i, hi⟩).tool := by
  intro rs
  induction rs with
  | nil => intro i hi; simp at hi
  | cons r rest ih =>
    intro i hi hm hearlier
    cases i with
    | zero =>
      have hne : (r.keywords.filter
          (fun kw => hasSub (pyLower kw).data normalized.data)).isEmpty = false := by
        exact (ruleMatches_iff_filter_ne r normalized).mp (by simpa using hm)
      simp [Planner.planGo, hne]
    | succ i =>
      have h0 : Planner.ruleMatches r normalized = false := by
        have h := hearlier 0 (by simp) (Nat.succ_pos i)
        simpa using h
      have hemp : (r.keywords.filter
          (fun kw => hasSub (pyLower kw).data normalized.data)).isEmpty = true := by
        rcases Bool.eq_false_or_eq_true
            ((r.keywords.filter
              (fun kw => hasSub (pyLower kw).data normalized.data)).isEmpty) with ht | hf
        · exact ht
        · exact absurd ((ruleMatches_iff_filter_ne r normalized).mpr hf) (by simp [h0])
      have hi' : i < rest.length := by
        simp only [List.length_cons] at hi
        omega
      have hm' : Planner.ruleMatches (rest.get ⟨i, hi'⟩) normalized = true := by
        simpa using hm
      have hearlier' : ∀ j, ∀ hj : j < rest.length, j < i →
          Planner.ruleMatches (rest.get ⟨j, hj⟩) normalized = false := by
        intro j hj hji
        have h := hearlier (j + 1) (by simp only [List.length_cons]; omega) (by omega)
        simpa using h
      have hrec := ih i hi' hm' hearlier'
      simpa [Planner.planGo, hemp] using hrec

/-- C4: the planner evaluates its rule table in declaration order and the
first rule with a matching keyword determines the task type and tool, so a
request containing keywords of several rules classifies under the earliest
matching rule. -/
theorem plan_first_rule_wins (p : Planner) (request : String) (i : Nat)
    (hi : i < Planner.TASK_RULES.length)
    (hmatch : Planner.ruleMatches (Planner.TASK_RULES.get ⟨i, hi⟩) (pyLower request) = true)
    (hfirst : ∀ j, ∀ hj : j < Planner.TASK_RULES.length, j < i →
      Planner.ruleMatches (Planner.TASK_RULES.get ⟨j, hj⟩) (pyLower request) = false) :
    (Planner.plan p request).task_type = (Planner.TASK_RULES.get ⟨i, hi⟩).task_type ∧
    (Planner.plan p request).tool_name = (Planner.TASK_RULES.get ⟨i, hi⟩).tool :=
  planGo_first_match p request (pyLower request) Planner.TASK_RULES i hi hmatch hfirst

/-- Witness for C4: a request holding both an anomaly keyword and an SOP
keyword classifies as anomaly diagnosis. -/
theorem plan_first_rule_wins_witness :
    Planner.ruleMatches (Planner.TASK_RULES.get ⟨0, by decide⟩) (pyLower "告警sop") = true ∧
    Planner.ruleMatches (Planner.TASK_RULES.get ⟨1, by decide⟩) (pyLower "告警sop") = true ∧
    (Planner.plan ⟨"sop_lookup"⟩ "告警sop").task_type = "anomaly_diagnosis" ∧
    (Planner.plan ⟨"sop_lookup"⟩ "告警sop").tool_name = "anomaly_diagnosis" := by
  have h := plan_first_rule_wins ⟨"sop_lookup"⟩ "告警sop" 0 (by decide) (by decide)
    (fun j hj hj0 => absurd hj0 (Nat.not_lt_zero j))
  refine ⟨by decide, by decide, ?_, ?_⟩
  · rw [h.1]; decide
  · rw [h.2]; decide

/-!  Verifier formula. -/

theorem isEmpty_false_iff (s : String) : s.isEmpty = false ↔ s ≠ "" := by
  rw [Bool.eq_false_iff]
  exact not_congr (String.isEmpty_iff s)

/-- C5: `verify` passes exactly when the retrieval context is non-empty and
the stripped answer is non-empty, and the confidence is the rounded score
when positive, else the rounded fixed values 0.2 (passed) or 0. -/
theorem verify_passed_confidence (tp : TaskPlan) (sr : SolveResult) (ret : RetrievalResult)
    (h : 0 ≤ ret.score) :
    ((Verifier.verify tp sr ret).passed = true ↔
      (ret.context ≠ "" ∧ pyStrip sr.answer ≠ "")) ∧
    (Verifier.verify tp sr ret).confidence =
      (if 0 < ret.score then round2 ret.score
       else if ret.context ≠ "" ∧ pyStrip sr.answer ≠ "" then round2 (0.2 : ℚ)
       else round2 0) := by
  unfold Verifier.verify
  dsimp only
  constructor
  · simp [Bool.and_eq_true, isEmpty_false_iff]
  · by_cases hpos : 0 < ret.score
    · rw [if_pos hpos]
      have hne : ret.score ≠ 0 := ne_of_gt hpos
      simp only [ne_eq, hne, not_false_eq_true, if_true]
    · have h0 : ret.score = 0 := le_antisymm (not_lt.mp hpos) h
      rw [if_neg hpos, h0]
      rw [show (if (0 : ℚ) ≠ 0 then (0 : ℚ)
          else if (!ret.context.isEmpty && !(pyStrip sr.answer).isEmpty) = true then (0.2 : ℚ)
          else 0) =
        (if (!ret.context.isEmpty && !(pyStrip sr.answer).isEmpty) = true then (0.2 : ℚ)
          else 0) from by rw [if_neg (by norm_num)]]
      by_cases hc : ret.context ≠ "" ∧ pyStrip sr.answer ≠ ""
      · have hb : (!ret.context.isEmpty && !(pyStrip sr.answer).isEmpty) = true := by
          simp [Bool.and_eq_true, isEmpty_false_iff, hc.1, hc.2]
        rw [if_pos hb, if_pos hc]
      · have hb : (!ret.context.isEmpty && !(pyStrip sr.answer).isEmpty) = false := by
          rcases Bool.eq_false_or_eq_true
              (!ret.context.isEmpty && !(pyStrip sr.answer).isEmpty) with ht | hf
          · exact absurd (by simpa [Bool.and_eq_true, isEmpty_false_iff] using ht) hc
          · exact hf
        rw [if_neg (by simp [hb]), if_neg hc]

/-- Witness for C5 at concrete inputs. -/
theorem verify_passed_confidence_witness :
    (0 : ℚ) ≤ (1 / 2 : ℚ) ∧
    (((Verifier.verify ⟨"t", "t", "q", []⟩ ⟨"ans", ⟨"t", "t", "q", []⟩, [], ""⟩
        ⟨"t", "q", "ctx", "src", 1 / 2, []⟩).passed = true ↔
      (("ctx" : String) ≠ "" ∧ pyStrip "ans" ≠ "")) ∧
    (Verifier.verify ⟨"t", "t", "q", []⟩ ⟨"ans", ⟨"t", "t", "q", []⟩, [], ""⟩
        ⟨"t", "q", "ctx", "src", 1 / 2, []⟩).confidence =
      (if (0 : ℚ) < 1 / 2 then round2 (1 / 2)
       else if ("ctx" : String) ≠ "" ∧ pyStrip "ans" ≠ "" then round2 (0.2 : ℚ)
       else round2 0)) :=
  ⟨by norm_num,
    verify_passed_confidence ⟨"t", "t", "q", []⟩ ⟨"ans", ⟨"t", "t", "q", []⟩, [], ""⟩
      ⟨"t", "q", "ctx", "src", 1 / 2, []⟩ (by norm_num)⟩

/-!  Unknown tool dispatch and planner query. -/

/-- Counterexample to C6 as stated: for an unknown tool name, the result's
source field is the literal string "unknown", not the empty string. -/
theorem execute_unknown_source_not_empty :
    (ToolExecutor.execute ⟨[], [], []⟩ ⟨"misc", "frobnicate", "q", []⟩).source = "unknown" ∧
    (ToolExecutor.execute ⟨[], [], []⟩ ⟨"misc", "frobnicate", "q", []⟩).source ≠ "" := by
  constructor
  · decide
  · decide

/-- C6 (amended): for every plan whose tool name is none of the three mapped
tools, `execute` returns empty context, the literal source "unknown", score
0 and error metadata naming the unknown tool, without raising. -/
theorem execute_unknown_tool_result (t : ToolExecutor) (plan : TaskPlan)
    (h1 : plan.tool_name ≠ "anomaly_diagnosis")
    (h2 : plan.tool_name ≠ "sop_lookup")
    (h3 : plan.tool_name ≠ "workorder_recommendation") :
    ToolExecutor.execute t plan =
      { task_type := plan.task_type,
        query := plan.query,
        context := "",
        source := "unknown",
        score := 0,
        metadata := [("error", "no tool named " ++ plan.tool_name)] } := by
  unfold ToolExecutor.execute
  rw [if_neg h1, if_neg h2, if_neg h3]

/-- Witness for the amended C6 at a concrete unknown tool. -/
theorem execute_unknown_tool_result_witness :
    ((⟨"misc", "frobnicate", "q", []⟩ : TaskPlan).tool_name ≠ "anomaly_diagnosis" ∧
      (⟨"misc", "frobnicate", "q", []⟩ : TaskPlan).tool_name ≠ "sop_lookup" ∧
      (⟨"misc", "frobnicate", "q", []⟩ : TaskPlan).tool_name ≠ "workorder_recommendation") ∧
    ToolExecutor.execute ⟨[], [], []⟩ ⟨"misc", "frobnicate", "q", []⟩ =
      { task_type := "misc",
        query := "q",
        context := "",
        source := "unknown",
        score := 0,
        metadata := [("error", "no tool named " ++ "frobnicate")] } :=
  ⟨⟨by decide, by decide, by decide⟩,
    execute_unknown_tool_result ⟨[], [], []⟩ ⟨"misc", "frobnicate", "q", []⟩
      (by decide) (by decide) (by decide)⟩

/-- Counterexample to C7 as stated: the request " " is non-empty, yet the
plan built from it has an empty query, because the query is the trimmed
request text. -/
theorem plan_blank_request_empty_query :
    (" " : String) ≠ "" ∧ (Planner.plan ⟨"sop_lookup"⟩ " ").query = "" := by
  constructor
  · decide
  · decide

/-- C7 (amended): the plan's query is the verbatim trimmed request text,
hence non-empty for every request whose trimmed text is non-empty. -/
theorem plan_query_trimmed (p : Planner) (request : String)
    (h : pyStrip request ≠ "") :
    (Planner.plan p request).query = pyStrip request ∧
    (Planner.plan p request).query ≠ "" := by
  have hq : ∀ rs : List Rule,
      (Planner.planGo p request (pyLower request) rs).query = pyStrip request := by
    intro rs
    induction rs with
    | nil => rfl
    | cons r rest ih =>
      simp only [Planner.planGo]
      split
      · exact ih
      · rfl
  exact ⟨hq Planner.TASK_RULES, by
    have h1 : (Planner.plan p request).query = pyStrip request := hq Planner.TASK_RULES
    rw [h1]
    exact h⟩

/-- Witness for the amended C7. -/
theorem plan_query_trimmed_witness :
    pyStrip " hi " ≠ "" ∧
    ((Planner.plan ⟨"sop_lookup"⟩ " hi ").query = pyStrip " hi " ∧
      (Planner.plan ⟨"sop_lookup"⟩ " hi ").query ≠ "") :=
  ⟨by decide, plan_query_trimmed ⟨"sop_lookup"⟩ " hi " (by decide)⟩

/-!  Solver templates. -/

/-- C8: whenever the retrieval context is non-empty, the solver's answer
contains the context verbatim as a substring (every template interpolates
it unchanged). -/
theorem solve_answer_contains_context (plan : TaskPlan) (ret : RetrievalResult)
    (h : ret.context ≠ "") :
    ret.context.data <:+: (Solver.solve plan ret).answer.data := by
  unfold Solver.solve
  rw [if_neg h]
  dsimp only
  unfold Solver.compose_answer
  split_ifs with h1 h2 h3
  · exact ⟨"【告警诊断结果】\n- 诊断要点：".data,
      "\n- 请按照推荐措施执行，并记录处理结果用于后续追踪。".data,
      by simp [String.data_append]⟩
  · exact ⟨"【SOP 建议】\n- 检索结果：".data,
      "\n- 请严格对照 SOP 步骤执行，并在执行单上完成签字确认。".data,
      by simp [String.data_append]⟩
  · exact ⟨"【工单推荐】\n- 推荐依据：".data,
      "\n- 若需停机，请提前与生产协调确认窗口。".data,
      by simp [String.data_append]⟩
  · exact ⟨"【通用响应】\n- 参考信息：".data,
      "\n- 建议复核需求类型以获取更准确建议。".data,
      by simp [String.data_append]⟩

/-- Witness for C8 at a concrete plan and retrieval result. -/
theorem solve_answer_contains_context_witness :
    ((⟨"anomaly_diagnosis", "q", "ctx", "src", 1, []⟩ : RetrievalResult)).context ≠ "" ∧
    ((⟨"anomaly_diagnosis", "q", "ctx", "src", 1, []⟩ : RetrievalResult)).context.data <:+:
      (Solver.solve ⟨"anomaly_diagnosis", "anomaly_diagnosis", "q", []⟩
        ⟨"anomaly_diagnosis", "q", "ctx", "src", 1, []⟩).answer.data :=
  ⟨by decide,
    solve_answer_contains_context ⟨"anomaly_diagnosis", "anomaly_diagnosis", "q", []⟩
      ⟨"anomaly_diagnosis", "q", "ctx", "src", 1, []⟩ (by decide)⟩

/-- C9: with an empty retrieval context, `solve` returns the fixed refusal
answer directing escalation, with an empty references mapping. -/
theorem solve_refusal_on_empty_context (plan : TaskPlan) (ret : RetrievalResult)
    (h : ret.context = "") :
    (Solver.solve plan ret).answer = "未检索到相关知识，请转人工或补充更多信息。" ∧
    (Solver.solve plan ret).references = [] := by
  unfold Solver.solve
  rw [if_pos h]
  exact ⟨rfl, rfl⟩

/-- Witness for C9 at a concrete plan and empty-context retrieval result. -/
theorem solve_refusal_on_empty_context_witness :
    ((⟨"t", "q", "", "", 0, []⟩ : RetrievalResult)).context = "" ∧
    ((Solver.solve ⟨"t", "t", "q", []⟩ ⟨"t", "q", "", "", 0, []⟩).answer =
        "未检索到相关知识，请转人工或补充更多信息。" ∧
      (Solver.solve ⟨"t", "t", "q", []⟩ ⟨"t", "q", "", "", 0, []⟩).references = []) :=
  ⟨rfl, solve_refusal_on_empty_context ⟨"t", "t", "q", []⟩ ⟨"t", "q", "", "", 0, []⟩ rfl⟩
